/-
Verification of the mobile sensor bridge (Node.js/browser) against its
natural-language specification.

Shallow embedding conventions:
- JS numbers are modelled as real numbers (ℝ); the JS expression `x || d`
  on numbers is modelled by `jsOrR` (0 is falsy). Fields that can be
  null/undefined or NaN are modelled by the `JSNum` type.
- Byte buffers (Node Buffer / ArrayBuffer) are lists of naturals < 256;
  `DataView.setUint32(..., true)` little-endian writes are modelled by
  `le32`, which truncates modulo 2^32 exactly as the JS API does.
- JS strings are modelled as `List Char` where character-level processing
  happens (base64, split), as Lean `String` otherwise.
- WebSocket peers are records carrying a `readyState` and an `inbox`
  (the list of payloads delivered to that peer so far); `client.send`
  appends to the inbox of an OPEN peer.
- setTimeout-based reconnect logic is modelled by pure functions from the
  relevant mutable state to the scheduled delay (`Option Nat`, none = no
  timer scheduled) plus a fire-time predicate saying whether the timer
  callback actually reconnects.
- Promise timing (shutdown sequence) is modelled with absolute completion
  times in milliseconds, `Option Nat` with none = a callback that never
  fires; `Promise.race` with a timer takes the minimum.
-/
import Mathlib

/-! ## Basic JS value modelling -/

/-- WebSocket readyState CONNECTING. -/
def WS_CONNECTING : Nat := 0

/-- WebSocket readyState OPEN. -/
def WS_OPEN : Nat := 1

/-- WebSocket readyState CLOSED. -/
def WS_CLOSED : Nat := 3

/-- The JS expression `x || d` for numbers already known to be numeric:
`0` is falsy and is replaced by the default. -/
noncomputable def jsOrR (x d : ℝ) : ℝ := if x = 0 then d else x

/-- A JS numeric field that may be null/undefined or NaN. -/
inductive JSNum where
  | undef : JSNum
  | nan : JSNum
  | num : ℝ → JSNum

/-- The JS expression `v || d` for a possibly-absent possibly-NaN number:
null, undefined, NaN and 0 are all falsy. -/
noncomputable def JSNum.orD : JSNum → ℝ → ℝ
  | JSNum.undef, d => d
  | JSNum.nan, d => d
  | JSNum.num r, d => if r = 0 then d else r

/-- ROS time stamp (sec/nanosec), as built in the server handlers. -/
structure Stamp where
  sec : Int
  nanosec : Int
deriving DecidableEq

/-- ROS std_msgs header. -/
structure MsgHeader where
  stamp : Stamp
  frame_id : String
deriving DecidableEq

/-! ## Byte-level helpers (Buffer / DataView semantics) -/

/-- Little-endian 16-bit write (`DataView.setUint16(..., true)`):
two bytes, value truncated modulo 2^16. -/
def le16 (x : Nat) : List Nat :=
  [x % 256, x / 256 % 256]

/-- Little-endian 32-bit write (`DataView.setUint32(..., true)`):
four bytes, value truncated modulo 2^32. -/
def le32 (x : Nat) : List Nat :=
  [x % 256, x / 256 % 256, x / 65536 % 256, x / 16777216 % 256]

/-- Read back the little-endian 32-bit integer stored at `off`. -/
def readLE32 (b : List Nat) (off : Nat) : Nat :=
  b.getD off 0 + 256 * b.getD (off + 1) 0 + 65536 * b.getD (off + 2) 0 +
    16777216 * b.getD (off + 3) 0

/-! ## Client audio player (src/mobile_sensor/src/client/audioPlayer.js) -/

/-- The 44-byte PCM WAV header synthesized by `addWavHeader` in
audioPlayer.js for a data section of `dataSize` bytes: RIFF chunk
descriptor, fmt sub-chunk for mono 16-bit 48000 Hz PCM, data sub-chunk. -/
def wavHeader (dataSize : Nat) : List Nat :=
  [82, 73, 70, 70] ++ le32 (36 + dataSize) ++ [87, 65, 86, 69] ++
  [102, 109, 116, 32] ++ le32 16 ++ le16 1 ++ le16 1 ++
  le32 48000 ++ le32 96000 ++ le16 2 ++ le16 16 ++
  [100, 97, 116, 97] ++ le32 dataSize

/-- `addWavHeader(audioData)` from audioPlayer.js: prepend the synthesized
44-byte header to the raw bytes. -/
def addWavHeader (audioData : List Nat) : List Nat :=
  wavHeader audioData.length ++ audioData

/-- The RIFF/WAVE container check performed both in audioPlayer.js
(`processAudioData`) and in ros_interface.js (`hasWavHeader`): at least 12
bytes, bytes 0-3 are ASCII "RIFF" and bytes 8-11 are ASCII "WAVE". -/
def hasRiffWave (b : List Nat) : Bool :=
  decide (12 ≤ b.length) &&
  (b.getD 0 0 == 82) && (b.getD 1 0 == 73) && (b.getD 2 0 == 70) &&
  (b.getD 3 0 == 70) &&
  (b.getD 8 0 == 87) && (b.getD 9 0 == 65) && (b.getD 10 0 == 86) &&
  (b.getD 11 0 == 69)

/-- `processAudioData(audioData)` from audioPlayer.js, restricted to the
buffer transformation it performs before playback: a buffer that already
carries a RIFF/WAVE header is passed through unchanged, any other buffer
(including buffers shorter than 12 bytes) gets the synthesized header
prepended. -/
def processAudioData (audioData : List Nat) : List Nat :=
  if hasRiffWave audioData then audioData else addWavHeader audioData

/-! ## Camera message handling
(src/mobile_sensor/src/server/websocket_handlers.js, setupCameraHandlers) -/

/-- JS `String.prototype.split(',')`: split on every comma, keeping empty
pieces; a string with no comma yields a one-element array. -/
def splitComma : List Char → List (List Char)
  | [] => [[]]
  | c :: rest =>
    match splitComma rest with
    | [] => [[c]]
    | h :: t => if c = ',' then [] :: h :: t else (c :: h) :: t

/-- Value of one base64 alphabet character (standard and URL-safe, as
accepted by `Buffer.from(s, 'base64')`); `none` for characters the decoder
skips. -/
def b64CharVal (c : Char) : Option Nat :=
  if 'A' ≤ c ∧ c ≤ 'Z' then some (c.toNat - 65)
  else if 'a' ≤ c ∧ c ≤ 'z' then some (c.toNat - 97 + 26)
  else if '0' ≤ c ∧ c ≤ '9' then some (c.toNat - 48 + 52)
  else if c = '+' ∨ c = '-' then some 62
  else if c = '/' ∨ c = '_' then some 63
  else none

/-- Regroup a list of 6-bit base64 values into bytes: each full group of
four values yields three bytes, a trailing group of three yields two
bytes, of two yields one byte, and a lone trailing value is dropped. -/
def b64Regroup : List Nat → List Nat
  | a :: b :: c :: d :: rest =>
    (a * 4 + b / 16) :: (b % 16 * 16 + c / 4) :: (c % 4 * 64 + d) ::
      b64Regroup rest
  | [a, b] => [a * 4 + b / 16]
  | [a, b, c] => [a * 4 + b / 16, b % 16 * 16 + c / 4]
  | _ => []

/-- `Buffer.from(s, 'base64')`: skip non-alphabet characters (incl. the
`=` padding), then regroup the 6-bit values into bytes. -/
def b64Decode (s : List Char) : List Nat :=
  b64Regroup (s.filterMap b64CharVal)

/-- The buffer-extraction step of the camera message handler in
websocket_handlers.js: `data.camera.split(',')[1]` followed by
`Buffer.from(base64Data, 'base64')`. When the payload contains no comma,
`split(',')[1]` is `undefined`, `Buffer.from` throws, the exception is
caught by the surrounding try/catch and the frame is dropped — modelled
as `none` (nothing is published). -/
def camHandlerDecode (camera : List Char) : Option (List Nat) :=
  match (splitComma camera).get? 1 with
  | none => none
  | some base64Data => some (b64Decode base64Data)

/-! ## Server publish functions
(src/mobile_sensor/src/server/ros_interface.js) -/

/-- Euler-to-quaternion component record (plain JS object with x/y/z/w). -/
structure Quat where
  x : ℝ
  y : ℝ
  z : ℝ
  w : ℝ

/-- `eulerToQuaternion(roll, pitch, yaw)` from ros_interface.js: converts
the angles from degrees to radians, then applies the standard
roll-pitch-yaw to quaternion formula. -/
noncomputable def eulerToQuaternion (roll pitch yaw : ℝ) : Quat :=
  let roll' := roll * Real.pi / 180
  let pitch' := pitch * Real.pi / 180
  let yaw' := yaw * Real.pi / 180
  let cy := Real.cos (yaw' * 0.5)
  let sy := Real.sin (yaw' * 0.5)
  let cp := Real.cos (pitch' * 0.5)
  let sp := Real.sin (pitch' * 0.5)
  let cr := Real.cos (roll' * 0.5)
  let sr := Real.sin (roll' * 0.5)
  { x := sr * cp * cy - cr * sp * sy
    y := cr * sp * cy + sr * cp * sy
    z := cr * cp * sy - sr * sp * cy
    w := cr * cp * cy + sr * sp * sy }

/-- Three-component vector of JS numbers. -/
structure Vec3 where
  x : ℝ
  y : ℝ
  z : ℝ

/-- Gyroscope sample as sent by the browser IMU manager
(DeviceOrientation naming: alpha/beta/gamma). -/
structure GyroSample where
  alpha : ℝ
  beta : ℝ
  gamma : ℝ

/-- One inertial sample as received by `publishIMUData`. -/
structure IMUData where
  accelerometer : Vec3
  gyroscope : GyroSample
  magnetometer : Vec3

/-- sensor_msgs/msg/Imu message as constructed by `publishIMUData`. -/
structure ImuMsg where
  header : MsgHeader
  linear_acceleration : Vec3
  angular_velocity : Vec3
  orientation : Quat
  orientation_covariance : List ℝ
  angular_velocity_covariance : List ℝ
  linear_acceleration_covariance : List ℝ

/-- `publishIMUData(imuData, timestamp)` from ros_interface.js. Returns
`none` when the IMU publisher is uninitialized (the JS function returns
false and publishes nothing), otherwise the published message. `now` is
the wall-clock stamp used when no timestamp argument is given. -/
noncomputable def publishIMUData (pubImu : Bool) (imuData : IMUData)
    (timestamp : Option Stamp) (now : Stamp) : Option ImuMsg :=
  if pubImu = false then none else
  let header : MsgHeader := { stamp := timestamp.getD now, frame_id := "imu_frame" }
  let q := eulerToQuaternion 0 0 (jsOrR imuData.magnetometer.z 0)
  some
    { header := header
      linear_acceleration :=
        { x := jsOrR imuData.accelerometer.x 0
          y := jsOrR imuData.accelerometer.y 0
          z := jsOrR imuData.accelerometer.z 0 }
      angular_velocity :=
        { x := jsOrR imuData.gyroscope.beta 0
          y := jsOrR imuData.gyroscope.alpha 0
          z := jsOrR imuData.gyroscope.gamma 0 }
      orientation := q
      orientation_covariance := List.replicate 9 (-1)
      angular_velocity_covariance := List.replicate 9 (-1)
      linear_acceleration_covariance := List.replicate 9 (-1) }

/-- One geo-fix sample as received by `publishGPSData`; the geolocation
API can deliver null altitude/accuracy and NaN values, hence `JSNum`. -/
structure GpsData where
  latitude : JSNum
  longitude : JSNum
  altitude : JSNum
  accuracy : JSNum

/-- NavSatFix status sub-message. -/
structure NavSatStatus where
  status : Int
  service : Int

/-- sensor_msgs/msg/NavSatFix message as constructed by `publishGPSData`. -/
structure NavSatFixMsg where
  header : MsgHeader
  status : NavSatStatus
  latitude : ℝ
  longitude : ℝ
  altitude : ℝ
  position_covariance : List ℝ
  position_covariance_type : Int

/-- `publishGPSData(gpsData, timestamp)` from ros_interface.js. The
altitude guard is `gpsData.altitude !== null && !isNaN(gpsData.altitude)`;
accuracy is `gpsData.accuracy || 1.0`; the covariance array is built by
`new Array(9).fill(0.0)` followed by assignments to indices 0, 4, 8. -/
noncomputable def publishGPSData (pubGps : Bool) (gpsData : GpsData)
    (timestamp : Option Stamp) (now : Stamp) : Option NavSatFixMsg :=
  if pubGps = false then none else
  let header : MsgHeader := { stamp := timestamp.getD now, frame_id := "gps_frame" }
  let altitude : ℝ :=
    match gpsData.altitude with
    | JSNum.num r => r
    | _ => 0
  let accuracy := gpsData.accuracy.orD 1
  let variance := accuracy * accuracy
  let positionCovariance :=
    (((List.replicate 9 (0 : ℝ)).set 0 variance).set 4 variance).set 8 variance
  some
    { header := header
      status := { status := 0, service := 1 }
      latitude := gpsData.latitude.orD 0
      longitude := gpsData.longitude.orD 0
      altitude := altitude
      position_covariance := positionCovariance
      position_covariance_type := 2 }

/-- sensor_msgs/msg/CompressedImage message as constructed by
`publishCameraData`. -/
structure CompressedImageMsg where
  header : MsgHeader
  format : String
  data : List Nat

/-- Region-of-interest sub-message of CameraInfo. -/
structure RegionOfInterest where
  x_offset : Nat
  y_offset : Nat
  height : ℝ
  width : ℝ
  do_rectify : Bool

/-- sensor_msgs/msg/CameraInfo message as constructed by
`publishCameraData`. -/
structure CameraInfoMsg where
  header : MsgHeader
  height : ℝ
  width : ℝ
  distortion_model : String
  d : List ℝ
  k : List ℝ
  r : List ℝ
  p : List ℝ
  binning_x : Nat
  binning_y : Nat
  roi : RegionOfInterest

/-- A message published on one of the two camera bus topics. -/
inductive CamBusMsg where
  | compressed : CompressedImageMsg → CamBusMsg
  | cameraInfo : CameraInfoMsg → CamBusMsg

/-- `publishCameraData(imageBuffer, width, height, timestamp)` from
ros_interface.js: returns the JS return value together with the list of
bus publish calls performed, in order. When either publisher is
uninitialized the function returns false having published nothing;
otherwise it publishes exactly one CompressedImage and one CameraInfo
message sharing one header. -/
noncomputable def publishCameraData (pubCompressed pubCameraInfo : Bool)
    (imageBuffer : List Nat) (width height : ℝ) (timestamp : Option Stamp)
    (now : Stamp) : Bool × List CamBusMsg :=
  if pubCompressed = false ∨ pubCameraInfo = false then (false, []) else
  let header : MsgHeader := { stamp := timestamp.getD now, frame_id := "camera_frame" }
  let compressedMsg : CompressedImageMsg :=
    { header := header, format := "jpeg", data := imageBuffer }
  let cameraInfoMsg : CameraInfoMsg :=
    { header := header
      height := height
      width := width
      distortion_model := "plumb_bob"
      d := [0, 0, 0, 0, 0]
      k := [width, 0, width / 2, 0, height, height / 2, 0, 0, 1]
      r := [1, 0, 0, 0, 1, 0, 0, 0, 1]
      p := [width, 0, width / 2, 0, 0, height, height / 2, 0, 0, 0, 1, 0]
      binning_x := 0
      binning_y := 0
      roi := { x_offset := 0, y_offset := 0, height := height, width := width,
               do_rectify := false } }
  (true, [CamBusMsg.compressed compressedMsg, CamBusMsg.cameraInfo cameraInfoMsg])

/-! ## Fan-out router (bus → browser) in ros_interface.js `initRos` -/

/-- A connected WebSocket peer of one server-side channel, with the list
of payloads delivered to it so far. -/
structure Peer (α : Type) where
  readyState : Nat
  inbox : List α
deriving DecidableEq

/-- Iterate the current peer set, `client.send(payload)` to every peer in
OPEN state, skip the others (shared body of all three bus-subscription
callbacks). -/
def wsBroadcast {α : Type} (payload : α) (clients : List (Peer α)) :
    List (Peer α) :=
  clients.map fun c =>
    if c.readyState = WS_OPEN then { c with inbox := c.inbox ++ [payload] }
    else c

/-- The `mobile_sensor/tts` subscription callback: counts OPEN clients
for the log line, then forwards the literal `msg.data` string to every
OPEN TTS client. -/
def onTtsMessage (data : String) (wssTTS : List (Peer String)) :
    List (Peer String) :=
  let activeClientCount := (wssTTS.filter fun c => c.readyState == WS_OPEN).length
  let _ := activeClientCount
  wsBroadcast data wssTTS

/-- The `mobile_sensor/tts_wav` subscription callback: builds the byte
buffer, computes (and never uses) the RIFF/WAVE header check, and sends
the buffer to every OPEN wav_audio client. -/
def onTtsWavMessage (data : List Nat) (wssWavAudio : List (Peer (List Nat))) :
    List (Peer (List Nat)) :=
  let buffer := data
  let hasWavHeader := hasRiffWave buffer
  let _ := hasWavHeader
  wsBroadcast buffer wssWavAudio

/-- The legacy `mobile_sensor/wav_bytes` subscription callback: identical
body to the `tts_wav` one (the header check only feeds a log line). -/
def onWavBytesMessage (data : List Nat) (wssWavAudio : List (Peer (List Nat))) :
    List (Peer (List Nat)) :=
  let buffer := data
  let hasWavHeader := hasRiffWave buffer
  let _ := hasWavHeader
  wsBroadcast buffer wssWavAudio

/-! ## Producer-side IMU send (IMUSensorManager in the client page) -/

/-- A client-side WebSocket handle as seen by a capture adapter. -/
structure WSocket where
  readyState : Nat
deriving DecidableEq

/-- The mutable state of the browser `IMUSensorManager` relevant to
`sendSensorData`: the active flag, the two socket fields (`this.ws` and
the backward-compatible `this.websocket`), and the latest sensor data. -/
structure IMUSensorManager where
  isActive : Bool
  ws : Option WSocket
  websocket : Option WSocket
  accelerometerData : Vec3
  gyroscopeData : GyroSample
  magnetometerData : Vec3

/-- The payload `sendSensorData` serializes and sends. -/
structure IMUPayload where
  timestamp : Nat
  accelerometer : Vec3
  gyroscope : GyroSample
  magnetometer : Vec3

/-- `IMUSensorManager.sendSensorData()`: `const socket = this.ws ||
this.websocket`; if the manager is inactive, the socket is missing, or
the socket is not OPEN, return without sending (`none`); otherwise send
the structured payload. -/
def sendSensorData (m : IMUSensorManager) (now : Nat) : Option IMUPayload :=
  let socket := m.ws <|> m.websocket
  match socket with
  | none => none
  | some s =>
    if m.isActive = false ∨ s.readyState ≠ WS_OPEN then none
    else
      some
        { timestamp := now
          accelerometer := m.accelerometerData
          gyroscope := m.gyroscopeData
          magnetometer := m.magnetometerData }

/-! ## Producer-side reconnect scheduling (client page `onclose` handlers
and audioPlayer.js) -/

/-- The client page state read by the sensor-channel `onclose` handlers
and by the scheduled reconnect callbacks (`isSessionActive` and the
`enabledSensors` flags). -/
structure SensorSessionState where
  isSessionActive : Bool
  poseEnabled : Bool
  cameraEnabled : Bool
  microphoneEnabled : Bool
  imuEnabled : Bool
  gpsEnabled : Bool

/-- `poseWs.onclose`: schedule one reconnect timer (delay in ms) iff the
session is still active. -/
def poseOnClose (s : SensorSessionState) : Option Nat :=
  if s.isSessionActive then some 1000 else none

/-- `cameraWs.onclose`: schedule one reconnect timer iff the session is
still active. -/
def cameraOnClose (s : SensorSessionState) : Option Nat :=
  if s.isSessionActive then some 1000 else none

/-- `microphoneWs.onclose`: schedule one reconnect timer iff the session
is still active. -/
def microphoneOnClose (s : SensorSessionState) : Option Nat :=
  if s.isSessionActive then some 1000 else none

/-- `imuWs.onclose`: schedule one reconnect timer iff the session is
still active. -/
def imuOnClose (s : SensorSessionState) : Option Nat :=
  if s.isSessionActive then some 1000 else none

/-- `gpsWs.onclose`: schedule one reconnect timer iff the session is
still active. -/
def gpsOnClose (s : SensorSessionState) : Option Nat :=
  if s.isSessionActive then some 1000 else none

/-- Fire-time guard of the pose reconnect timer callback:
`enabledSensors.pose && isSessionActive`. -/
def poseReconnectFires (s : SensorSessionState) : Bool :=
  s.poseEnabled && s.isSessionActive

/-- Fire-time guard of the camera reconnect timer callback:
`enabledSensors.camera && isSessionActive`. -/
def cameraReconnectFires (s : SensorSessionState) : Bool :=
  s.cameraEnabled && s.isSessionActive

/-- Fire-time guard of the microphone reconnect timer callback. -/
def microphoneReconnectFires (s : SensorSessionState) : Bool :=
  s.microphoneEnabled && s.isSessionActive

/-- Fire-time guard of the IMU reconnect timer callback. -/
def imuReconnectFires (s : SensorSessionState) : Bool :=
  s.imuEnabled && s.isSessionActive

/-- Fire-time guard of the GPS reconnect timer callback. -/
def gpsReconnectFires (s : SensorSessionState) : Bool :=
  s.gpsEnabled && s.isSessionActive

/-- The audioPlayer.js module state read by its `ws.onclose` handler and
by `connectWebSocket`: the audio config (mode string and enabled flag),
the `autoReconnect` flag (set to false only by `disconnectWebSocket`,
which runs on explicit disable and on session stop), and the readyState
of the current socket (`none` when `ws` is null). -/
structure AudioPlayerState where
  mode : String
  enabled : Bool
  autoReconnect : Bool
  wsState : Option Nat

/-- `ws.onclose` in audioPlayer.js: schedule one reconnect timer after a
3000 ms delay iff `autoReconnect` is set; the session-active flag is not
consulted. -/
def wavAudioOnClose (a : AudioPlayerState) : Option Nat :=
  if a.autoReconnect then some 3000 else none

/-- Whether a fired `connectWebSocket()` call in audioPlayer.js proceeds
to open a new socket: it returns early when the mode is not `wav` or
audio is disabled, or when a socket is already CONNECTING or OPEN; it
performs no session-active check. -/
def wavConnectProceeds (a : AudioPlayerState) : Bool :=
  if a.mode ≠ "wav" ∨ a.enabled = false then false
  else if a.wsState = some WS_CONNECTING ∨ a.wsState = some WS_OPEN then false
  else true

/-! ## Server shutdown timing (app shutdown + express_server stopServer) -/

/-- `stopServer(server)` from express_server.js, as an absolute completion
time: started at `start`, it resolves at the earlier of the close
callback (after `closeDur` ms, `none` = the callback never fires) and its
internal 2000 ms safety timer; the error paths also resolve, so it always
resolves. -/
def stopServerDone (start : Nat) (closeDur : Option Nat) : Nat :=
  start + match closeDur with
  | none => 2000
  | some d => min 2000 d

/-- Await `Promise.race` of a promise resolving at absolute time `p`
(`none` = never) against the shared shutdown timer resolving at absolute
time `timeoutAt`, with the await starting at time `start`: an already
resolved branch completes the race immediately. -/
def awaitRaceAt (start timeoutAt : Nat) (p : Option Nat) : Nat :=
  max start (match p with
  | none => timeoutAt
  | some t => min timeoutAt t)

/-- Result of the application `shutdown()` sequence in the main server
file. -/
structure ShutdownResult where
  completeAt : Nat
  completeLogged : Bool
  exited : Bool

/-- The `shutdown()` sequence of the main server file:
`closeAllConnections()` runs synchronously at time 0; one shared 3000 ms
timeout promise is created; the ROS shutdown (resolving after `rosDur`
ms, `none` = its callback never fires) is raced against it, then
`stopServer` is raced against the same (single) timeout promise; errors
in either step are caught inside the steps (`rosErr`, `serverErr` only
affect logging), and `process.exit(0)` runs unconditionally in the
`finally` block. -/
def appShutdown (rosDur serverCloseDur : Option Nat) (rosErr serverErr : Bool) :
    ShutdownResult :=
  let _ := rosErr
  let _ := serverErr
  let timeoutAt := 3000
  let t1 := awaitRaceAt 0 timeoutAt rosDur
  let t2 := awaitRaceAt t1 timeoutAt (some (stopServerDone t1 serverCloseDur))
  { completeAt := t2, completeLogged := true, exited := true }

/-- The orientation quaternion described by the specification's words
(for comparison with what the code computes): the magnetometer heading
converted from degrees to radians and used as yaw in the standard
roll-pitch-yaw formula with roll = pitch = 0, which collapses to
(0, 0, sin(rad/2), cos(rad/2)). -/
noncomputable def specYawOnlyQuaternion (heading : ℝ) : Quat :=
  { x := 0
    y := 0
    z := Real.sin (heading * Real.pi / 180 * 0.5)
    w := Real.cos (heading * Real.pi / 180 * 0.5) }

/-! ## Theorems -/

/-- The synthesized WAV header is exactly 44 bytes long. -/
theorem wavHeader_length (n : Nat) : (wavHeader n).length = 44 := rfl

set_option maxHeartbeats 2000000 in
/-- The little-endian field at bytes 40-43 of the synthesized buffer
stores the data size modulo 2^32. -/
theorem readLE32_addWavHeader (d : List Nat) :
    readLE32 (addWavHeader d) 40 = d.length % 4294967296 := by
  have h : readLE32 (addWavHeader d) 40 =
      d.length % 256 + 256 * (d.length / 256 % 256) +
        65536 * (d.length / 65536 % 256) +
        16777216 * (d.length / 16777216 % 256) := rfl
  rw [h]
  omega

/-- Claim C4: a received audio buffer without a valid RIFF/WAVE container
header gets exactly 44 header bytes prepended; the little-endian 32-bit
data-length field at bytes 40-43 of the result equals the original byte
length, and the original bytes follow the header unchanged; a buffer that
already carries the RIFF/WAVE header is passed through unmodified. -/
theorem claim_C4 (audioData : List Nat) :
    (hasRiffWave audioData = false →
      processAudioData audioData = addWavHeader audioData ∧
      (addWavHeader audioData).length = 44 + audioData.length ∧
      (addWavHeader audioData).take 44 = wavHeader audioData.length ∧
      (addWavHeader audioData).drop 44 = audioData ∧
      (audioData.length < 4294967296 →
        readLE32 (addWavHeader audioData) 40 = audioData.length)) ∧
    (hasRiffWave audioData = true →
      processAudioData audioData = audioData) := by
  constructor
  · intro h
    refine ⟨by simp [processAudioData, h], ?_, ?_, ?_, ?_⟩
    · simp [addWavHeader, wavHeader_length]
    · rw [addWavHeader, List.take_left' (wavHeader_length audioData.length)]
    · rw [addWavHeader, List.drop_left' (wavHeader_length audioData.length)]
    · intro hlen
      rw [readLE32_addWavHeader, Nat.mod_eq_of_lt hlen]
  · intro h
    simp [processAudioData, h]

/-- Witness for claim C4 at concrete buffers: the 3-byte raw buffer
[1, 2, 3] gets the header prepended with data-length field 3, and a
12-byte buffer starting with RIFF/WAVE passes through unchanged. -/
theorem claim_C4_witness :
    hasRiffWave [1, 2, 3] = false ∧
    processAudioData [1, 2, 3] = addWavHeader [1, 2, 3] ∧
    readLE32 (addWavHeader [1, 2, 3]) 40 = 3 ∧
    hasRiffWave [82, 73, 70, 70, 0, 0, 0, 0, 87, 65, 86, 69] = true ∧
    processAudioData [82, 73, 70, 70, 0, 0, 0, 0, 87, 65, 86, 69] =
      [82, 73, 70, 70, 0, 0, 0, 0, 87, 65, 86, 69] := by
  refine ⟨by decide, ((claim_C4 [1, 2, 3]).1 (by decide)).1,
    ((claim_C4 [1, 2, 3]).1 (by decide)).2.2.2.2 (by decide), by decide,
    (claim_C4 [82, 73, 70, 70, 0, 0, 0, 0, 87, 65, 86, 69]).2 (by decide)⟩

set_option maxHeartbeats 2000000 in
/-- Claim C1 (evaluation of the camera-handler code at the failing
input): a base64 payload with no data-URL prefix, such as "AAAA", makes
`split(',')[1]` undefined, so the decode throws and the frame is dropped
(`none` — nothing is published), although its base64 decoding has 3
bytes; the same payload with a data-URL prefix is decoded and published. -/
theorem claim_C1_bug_eval :
    camHandlerDecode "AAAA".toList = none ∧
    camHandlerDecode "data:image/jpeg;base64,AAAA".toList =
      some (b64Decode "AAAA".toList) ∧
    (b64Decode "AAAA".toList).length = 3 := by
  refine ⟨by decide, by decide, by decide⟩

/-- For a numeric field already known to be a number, the JS guard
`x || 0.0` is the identity. -/
theorem jsOrR_zero (x : ℝ) : jsOrR x 0 = x := by
  rcases eq_or_ne x 0 with h | h <;> simp [jsOrR, h]

/-- Claim C2: every published IMU message carries angular velocity
(x, y, z) = (beta, alpha, gamma) of the input gyroscope sample, an
orientation equal to the yaw-only quaternion synthesized from the
magnetometer heading (degrees to radians, roll = pitch = 0), and all
three covariance arrays equal to nine entries of -1. -/
theorem claim_C2 (d : IMUData) (ts : Option Stamp) (now : Stamp) :
    ∃ m, publishIMUData true d ts now = some m ∧
      m.angular_velocity.x = d.gyroscope.beta ∧
      m.angular_velocity.y = d.gyroscope.alpha ∧
      m.angular_velocity.z = d.gyroscope.gamma ∧
      m.orientation = specYawOnlyQuaternion d.magnetometer.z ∧
      m.orientation_covariance = List.replicate 9 (-1) ∧
      m.angular_velocity_covariance = List.replicate 9 (-1) ∧
      m.linear_acceleration_covariance = List.replicate 9 (-1) := by
  refine ⟨_, rfl, jsOrR_zero _, jsOrR_zero _, jsOrR_zero _, ?_, rfl, rfl, rfl⟩
  show eulerToQuaternion 0 0 (jsOrR d.magnetometer.z 0) =
    specYawOnlyQuaternion d.magnetometer.z
  rw [jsOrR_zero]
  simp only [eulerToQuaternion, specYawOnlyQuaternion, Quat.mk.injEq]
  norm_num [Real.sin_zero, Real.cos_zero]

/-- Claim C3 counterexample: a geo-fix sample whose accuracy is present
and equal to 0 is published with position-covariance diagonal entry 1
(the `accuracy || 1.0` guard treats 0 as falsy), not accuracy squared
= 0 as the claim states. -/
theorem claim_C3_counterexample :
    (publishGPSData true
        { latitude := JSNum.num 12, longitude := JSNum.num 34,
          altitude := JSNum.num 5, accuracy := JSNum.num 0 }
        (some { sec := 0, nanosec := 0 }) { sec := 0, nanosec := 0 }).map
      (fun m => m.position_covariance.getD 0 0) = some 1 ∧
    (1 : ℝ) ≠ 0 * 0 := by
  constructor
  · simp only [publishGPSData, JSNum.orD, Option.map]
    norm_num
  · norm_num

/-- Claim C3 as amended: the position covariance is the diagonal matrix
with every diagonal entry equal to the square of the effective accuracy,
where the effective accuracy is the input accuracy when present and
nonzero and defaults to 1.0 when the accuracy is absent, NaN, or zero;
altitude passes through when numeric and defaults to 0 when absent or
NaN; fix status is always 0 with service 1. -/
theorem claim_C3_amended (g : GpsData) (ts : Option Stamp) (now : Stamp) :
    ∃ m, publishGPSData true g ts now = some m ∧
      m.position_covariance =
        [g.accuracy.orD 1 * g.accuracy.orD 1, 0, 0,
         0, g.accuracy.orD 1 * g.accuracy.orD 1, 0,
         0, 0, g.accuracy.orD 1 * g.accuracy.orD 1] ∧
      (∀ r, g.accuracy = JSNum.num r → r ≠ 0 → g.accuracy.orD 1 = r) ∧
      ((g.accuracy = JSNum.undef ∨ g.accuracy = JSNum.nan ∨
        g.accuracy = JSNum.num 0) → g.accuracy.orD 1 = 1) ∧
      (∀ r, g.altitude = JSNum.num r → m.altitude = r) ∧
      ((g.altitude = JSNum.undef ∨ g.altitude = JSNum.nan) → m.altitude = 0) ∧
      m.status.status = 0 ∧ m.status.service = 1 := by
  refine ⟨_, rfl, rfl, ?_, ?_, ?_, ?_, rfl, rfl⟩
  · intro r h hne
    rw [h]
    simp [JSNum.orD, hne]
  · rintro (h | h | h) <;> simp [h, JSNum.orD]
  · intro r h
    simp [publishGPSData, h]
  · rintro (h | h) <;> simp [publishGPSData, h]

/-- Witness for the amended claim C3 at a concrete sample with accuracy 3
and altitude 7: diagonal entries 9, altitude 7, status 0, service 1. -/
theorem claim_C3_witness :
    ∃ m, publishGPSData true
        { latitude := JSNum.num 1, longitude := JSNum.num 2,
          altitude := JSNum.num 7, accuracy := JSNum.num 3 }
        (some { sec := 0, nanosec := 0 }) { sec := 0, nanosec := 0 } = some m ∧
      m.position_covariance = [9, 0, 0, 0, 9, 0, 0, 0, 9] ∧
      m.altitude = 7 ∧ m.status.status = 0 ∧ m.status.service = 1 := by
  obtain ⟨m, hm, hcov, hacc, -, halt, -, hs, hsv⟩ :=
    claim_C3_amended
      { latitude := JSNum.num 1, longitude := JSNum.num 2,
        altitude := JSNum.num 7, accuracy := JSNum.num 3 }
      (some { sec := 0, nanosec := 0 }) { sec := 0, nanosec := 0 }
  refine ⟨m, hm, ?_, halt 7 rfl, hs, hsv⟩
  rw [hacc 3 rfl (by norm_num)] at hcov
  rw [hcov]
  norm_num

/-- Claim C5 counterexample: with the session active, wav audio enabled
and its auto-reconnect flag set, a close of the wav-audio playback
channel schedules its reconnect after 3000 ms, not after the 1000 ms the
claim states for every channel. -/
theorem claim_C5_counterexample :
    wavAudioOnClose
      { mode := "wav", enabled := true, autoReconnect := true,
        wsState := some WS_CLOSED } = some 3000 ∧
    wavAudioOnClose
      { mode := "wav", enabled := true, autoReconnect := true,
        wsState := some WS_CLOSED } ≠ some 1000 := by
  constructor <;> simp [wavAudioOnClose]

/-- Claim C5 as amended: for the sensor channels (pose, camera,
microphone, imu, gps) a close while the session is active schedules
exactly one reconnect after 1000 ms (none when the session ended), and a
scheduled reconnect that fires after the sensor was disabled or the
session ended is a no-op; the wav-audio playback channel instead
schedules its reconnect after 3000 ms whenever its auto-reconnect flag is
still set (the flag is cleared on explicit disable and on session stop),
a fired wav reconnect is a no-op when audio is disabled in the config,
but it is not suppressed by the session ending alone. -/
theorem claim_C5_amended :
    (∀ s : SensorSessionState, s.isSessionActive = true →
      poseOnClose s = some 1000 ∧ cameraOnClose s = some 1000 ∧
      microphoneOnClose s = some 1000 ∧ imuOnClose s = some 1000 ∧
      gpsOnClose s = some 1000) ∧
    (∀ s : SensorSessionState, s.isSessionActive = false →
      poseOnClose s = none ∧ cameraOnClose s = none ∧
      microphoneOnClose s = none ∧ imuOnClose s = none ∧
      gpsOnClose s = none) ∧
    (∀ s : SensorSessionState, s.isSessionActive = false ∨ s.poseEnabled = false →
      poseReconnectFires s = false) ∧
    (∀ s : SensorSessionState, s.isSessionActive = false ∨ s.cameraEnabled = false →
      cameraReconnectFires s = false) ∧
    (∀ s : SensorSessionState,
      s.isSessionActive = false ∨ s.microphoneEnabled = false →
      microphoneReconnectFires s = false) ∧
    (∀ s : SensorSessionState, s.isSessionActive = false ∨ s.imuEnabled = false →
      imuReconnectFires s = false) ∧
    (∀ s : SensorSessionState, s.isSessionActive = false ∨ s.gpsEnabled = false →
      gpsReconnectFires s = false) ∧
    (∀ a : AudioPlayerState, a.autoReconnect = true →
      wavAudioOnClose a = some 3000) ∧
    (∀ a : AudioPlayerState, a.autoReconnect = false →
      wavAudioOnClose a = none) ∧
    (∀ a : AudioPlayerState, a.enabled = false → wavConnectProceeds a = false) ∧
    (∀ a : AudioPlayerState, a.mode = "wav" → a.enabled = true →
      a.wsState = none → wavConnectProceeds a = true) := by
  refine ⟨?_, ?_, ?_, ?_, ?_, ?_, ?_, ?_, ?_, ?_, ?_⟩
  · intro s h
    refine ⟨?_, ?_, ?_, ?_, ?_⟩ <;>
      simp [poseOnClose, cameraOnClose, microphoneOnClose, imuOnClose,
        gpsOnClose, h]
  · intro s h
    refine ⟨?_, ?_, ?_, ?_, ?_⟩ <;>
      simp [poseOnClose, cameraOnClose, microphoneOnClose, imuOnClose,
        gpsOnClose, h]
  · rintro s (h | h) <;> simp [poseReconnectFires, h]
  · rintro s (h | h) <;> simp [cameraReconnectFires, h]
  · rintro s (h | h) <;> simp [microphoneReconnectFires, h]
  · rintro s (h | h) <;> simp [imuReconnectFires, h]
  · rintro s (h | h) <;> simp [gpsReconnectFires, h]
  · intro a h
    simp [wavAudioOnClose, h]
  · intro a h
    simp [wavAudioOnClose, h]
  · intro a h
    simp [wavConnectProceeds, h]
  · intro a hm he hw
    simp [wavConnectProceeds, hm, he, hw, WS_CONNECTING, WS_OPEN]

/-- Witness for the amended claim C5 at concrete states: an active
session schedules the camera reconnect after 1000 ms, and a wav-audio
state with the auto-reconnect flag set schedules its reconnect after
3000 ms while a disabled one never proceeds. -/
theorem claim_C5_witness :
    cameraOnClose
      { isSessionActive := true, poseEnabled := true, cameraEnabled := true,
        microphoneEnabled := true, imuEnabled := true, gpsEnabled := true } =
      some 1000 ∧
    wavAudioOnClose
      { mode := "wav", enabled := true, autoReconnect := true,
        wsState := none } = some 3000 ∧
    wavConnectProceeds
      { mode := "wav", enabled := false, autoReconnect := true,
        wsState := none } = false := by
  refine ⟨(claim_C5_amended.1 _ rfl).2.1, ?_, ?_⟩
  · exact claim_C5_amended.2.2.2.2.2.2.2.1 _ rfl
  · exact claim_C5_amended.2.2.2.2.2.2.2.2.2.1 _ rfl

/-- Broadcasting over a peer set with no OPEN peer leaves every peer
unchanged. -/
theorem wsBroadcast_skip_closed {α : Type} (p : α) :
    ∀ cs : List (Peer α), (∀ c ∈ cs, c.readyState ≠ WS_OPEN) →
      wsBroadcast p cs = cs := by
  intro cs
  induction cs with
  | nil => intro h; rfl
  | cons c cs ih =>
    intro h
    have h1 : wsBroadcast p (c :: cs) =
        (if c.readyState = WS_OPEN then { c with inbox := c.inbox ++ [p] }
          else c) :: wsBroadcast p cs := rfl
    rw [h1, if_neg (h c (List.mem_cons_self c cs)),
      ih fun x hx => h x (List.mem_cons_of_mem c hx)]

/-- Claim C6: each bus-to-consumer callback sends the literal payload to
exactly the peers of its channel that are OPEN at send time, leaves the
others untouched (no error, no delivery), a peer connecting after the
send receives nothing from it (the send only rewrites the peer set
present at send time), and the legacy `wav_bytes` and new `tts_wav`
subscriptions behave identically. -/
theorem claim_C6 (payload : String) :
    (∀ wssTTS : List (Peer String),
      onTtsMessage payload wssTTS = wssTTS.map fun c =>
        if c.readyState = WS_OPEN then
          { readyState := c.readyState, inbox := c.inbox ++ [payload] }
        else c) ∧
    (∀ wssTTS : List (Peer String), (∀ c ∈ wssTTS, c.readyState ≠ WS_OPEN) →
      onTtsMessage payload wssTTS = wssTTS) ∧
    (onTtsMessage "Hello"
        [{ readyState := WS_OPEN, inbox := [] },
         { readyState := WS_OPEN, inbox := [] }] =
      [{ readyState := WS_OPEN, inbox := ["Hello"] },
       { readyState := WS_OPEN, inbox := ["Hello"] }]) ∧
    (∀ (b : List Nat) (wss : List (Peer (List Nat))),
      onTtsWavMessage b wss = onWavBytesMessage b wss) := by
  refine ⟨?_, ?_, ?_, ?_⟩
  · intro wssTTS
    rfl
  · intro wssTTS h
    exact wsBroadcast_skip_closed payload wssTTS h
  · rfl
  · intro b wss
    rfl

/-- Witness for claim C6: with two peers of which only the first is OPEN,
only the first inbox receives the payload; an all-closed peer set is
returned unchanged. -/
theorem claim_C6_witness :
    onTtsMessage "hi"
      [{ readyState := WS_OPEN, inbox := [] },
       { readyState := WS_CLOSED, inbox := [] }] =
      [{ readyState := WS_OPEN, inbox := ["hi"] },
       { readyState := WS_CLOSED, inbox := [] }] ∧
    onTtsMessage "hi" [{ readyState := WS_CLOSED, inbox := [] }] =
      [{ readyState := WS_CLOSED, inbox := [] }] := by
  constructor
  · rw [(claim_C6 "hi").1]
    decide
  · exact (claim_C6 "hi").2.1 _ (by decide)

/-- Claim C7: a producer-side sample send with the channel not OPEN
(manager inactive, socket missing, or socket not in OPEN state) returns
without sending anything and without raising, and the server-side fan-out
over a peer set with zero OPEN peers (in particular the empty peer set)
delivers nothing and leaves every peer unchanged. -/
theorem claim_C7 :
    (∀ (m : IMUSensorManager) (now : Nat),
      ¬(∃ s, (m.ws <|> m.websocket) = some s ∧ m.isActive = true ∧
          s.readyState = WS_OPEN) →
      sendSensorData m now = none) ∧
    (∀ (α : Type) (p : α), wsBroadcast p ([] : List (Peer α)) = []) ∧
    (∀ (α : Type) (p : α) (cs : List (Peer α)),
      (∀ c ∈ cs, c.readyState ≠ WS_OPEN) → wsBroadcast p cs = cs) := by
  refine ⟨?_, ?_, ?_⟩
  · intro m now h
    unfold sendSensorData
    cases hs : m.ws <|> m.websocket with
    | none => rfl
    | some s =>
      cases hA : m.isActive with
      | false => simp [hA]
      | true =>
        have hr : s.readyState ≠ WS_OPEN := fun hr => h ⟨s, hs, hA, hr⟩
        simp [hr]
  · intro α p
    rfl
  · intro α p cs h
    exact wsBroadcast_skip_closed p cs h

/-- Witness for claim C7 at a concrete manager whose socket is CLOSED and
at a concrete peer set with no OPEN peer. -/
theorem claim_C7_witness :
    sendSensorData
      { isActive := true, ws := some { readyState := WS_CLOSED },
        websocket := none,
        accelerometerData := { x := 0, y := 0, z := 0 },
        gyroscopeData := { alpha := 0, beta := 0, gamma := 0 },
        magnetometerData := { x := 0, y := 0, z := 0 } } 5 = none ∧
    wsBroadcast (7 : Nat) ([] : List (Peer Nat)) = [] ∧
    wsBroadcast (7 : Nat) [{ readyState := WS_CLOSED, inbox := [] }] =
      [{ readyState := WS_CLOSED, inbox := [] }] := by
  refine ⟨claim_C7.1 _ 5 ?_, claim_C7.2.1 Nat 7, claim_C7.2.2 Nat 7 _ ?_⟩
  · rintro ⟨s, hs, -, hr⟩
    have hs' : some (WSocket.mk WS_CLOSED) = some s := hs
    cases hs'
    exact absurd hr (by decide)
  · intro c hc
    rcases List.mem_singleton.mp hc with rfl
    decide

/-- Claim C8: publishing a camera sample with width 640 and height 480
produces exactly one CompressedImage publish call (format "jpeg") and
exactly one CameraInfo publish call, in that order; the CameraInfo
message has width 640, height 480 and intrinsic entry k[2] = 320, both
messages share one header with frame id "camera_frame" and the
producer-supplied timestamp; with either publisher uninitialized the call
returns false and publishes nothing. -/
theorem claim_C8 (imageBuffer : List Nat) (ts : Option Stamp) (now : Stamp) :
    (∀ pc pi : Bool, pc = false ∨ pi = false →
      publishCameraData pc pi imageBuffer 640 480 ts now = (false, [])) ∧
    ∃ c i, publishCameraData true true imageBuffer 640 480 ts now =
        (true, [CamBusMsg.compressed c, CamBusMsg.cameraInfo i]) ∧
      c.format = "jpeg" ∧ c.data = imageBuffer ∧
      i.width = 640 ∧ i.height = 480 ∧ i.k.getD 2 0 = 320 ∧
      c.header = i.header ∧ c.header.frame_id = "camera_frame" ∧
      c.header.stamp = ts.getD now := by
  constructor
  · rintro pc pi (h | h) <;> simp [publishCameraData, h]
  · refine ⟨_, _, rfl, rfl, rfl, rfl, rfl, ?_, rfl, rfl, rfl⟩
    show (640 : ℝ) / 2 = 320
    norm_num

/-- Witness for claim C8 at a concrete one-byte frame: the two publish
calls appear with the stated fields, and a missing CompressedImage
publisher publishes nothing. -/
theorem claim_C8_witness :
    publishCameraData false true [7] 640 480 none { sec := 1, nanosec := 2 } =
      (false, []) ∧
    ∃ c i, publishCameraData true true [7] 640 480 none
        { sec := 1, nanosec := 2 } =
        (true, [CamBusMsg.compressed c, CamBusMsg.cameraInfo i]) ∧
      c.format = "jpeg" ∧ i.k.getD 2 0 = 320 ∧
      c.header.stamp = Stamp.mk 1 2 := by
  obtain ⟨c, i, hp, hf, -, -, -, hk, -, -, hs⟩ :=
    (claim_C8 [7] none { sec := 1, nanosec := 2 }).2
  exact ⟨(claim_C8 [7] none { sec := 1, nanosec := 2 }).1 false true (Or.inl rfl),
    c, i, hp, hf, hk, hs⟩

/-- Claim C9: the application shutdown sequence completes and exits
within the 3000 ms shared timeout for every combination of teardown-step
durations, including steps whose callbacks never fire, and for every
combination of step failures; the completion log and process exit always
happen. -/
theorem claim_C9 (rosDur serverCloseDur : Option Nat) (rosErr serverErr : Bool) :
    (appShutdown rosDur serverCloseDur rosErr serverErr).completeAt ≤ 3000 ∧
    (appShutdown rosDur serverCloseDur rosErr serverErr).completeLogged = true ∧
    (appShutdown rosDur serverCloseDur rosErr serverErr).exited = true := by
  refine ⟨?_, rfl, rfl⟩
  unfold appShutdown awaitRaceAt stopServerDone
  cases rosDur with
  | none => cases serverCloseDur <;> simp
  | some t => cases serverCloseDur <;> simp

/-- Claim C10: both wav-audio bus subscriptions deliver the byte buffer
published on the bus verbatim to every OPEN peer (the RIFF/WAVE check
they compute never alters the forwarded bytes), and the 44-byte header
synthesis is performed only by the browser audio player, immediately
before playback. -/
theorem claim_C10 (bytes : List Nat) (wss : List (Peer (List Nat))) :
    onTtsWavMessage bytes wss = wss.map (fun c =>
      if c.readyState = WS_OPEN then
        { readyState := c.readyState, inbox := c.inbox ++ [bytes] }
      else c) ∧
    onWavBytesMessage bytes wss = wss.map (fun c =>
      if c.readyState = WS_OPEN then
        { readyState := c.readyState, inbox := c.inbox ++ [bytes] }
      else c) ∧
    (hasRiffWave bytes = false →
      processAudioData bytes = wavHeader bytes.length ++ bytes) := by
  refine ⟨rfl, rfl, ?_⟩
  intro h
  simp [processAudioData, h, addWavHeader]

/-- Witness for claim C10: a headerless 2-byte buffer is forwarded
verbatim to an OPEN peer by both subscriptions, and only the browser
player prepends the header. -/
theorem claim_C10_witness :
    onTtsWavMessage [3, 4] [{ readyState := WS_OPEN, inbox := [] }] =
      [{ readyState := WS_OPEN, inbox := [[3, 4]] }] ∧
    onWavBytesMessage [3, 4] [{ readyState := WS_OPEN, inbox := [] }] =
      [{ readyState := WS_OPEN, inbox := [[3, 4]] }] ∧
    processAudioData [3, 4] = wavHeader 2 ++ [3, 4] := by
  obtain ⟨h1, h2, h3⟩ := claim_C10 [3, 4] [{ readyState := WS_OPEN, inbox := [] }]
  refine ⟨?_, ?_, h3 (by decide)⟩
  · rw [h1]; decide
  · rw [h2]; decide
